import Mathlib

set_option maxRecDepth 100000

/-!
Shallow embedding of the simple-asgi-webserver repository.

The repository contains two revisions of the same server:
  * `src/server.py`            — HTTP-only revision (modelled in namespace `Server`)
  * `src/2 websocket/server.py` — HTTP + WebSocket revision (modelled in namespace `WS`)

Byte streams are modelled as `List Nat` (each element a byte value 0..255).
`asyncio.StreamReader.read n` on a fully buffered, EOF-terminated stream
returns the first `min n (length)` bytes; we model it with `List.take` /
`List.drop`.  Fallible Python code (struct.unpack on a wrong-sized buffer,
`int()` on a non-numeric string, KeyError, UnicodeDecodeError, ...) is
modelled with `Option` / `Except`.
-/

deriving instance DecidableEq for Except

namespace Asgi

/-- Big-endian byte serialisation, `int.to_bytes(n, "big")` for values that fit. -/
def toBytesBE : Nat → Nat → List Nat
  | 0, _ => []
  | n + 1, v => toBytesBE n (v / 256) ++ [v % 256]

/-- Little-endian integer of a byte list, `struct.unpack("<H" / "<Q", ...)`. -/
def fromBytesLE : List Nat → Nat
  | [] => 0
  | b :: rest => b + 256 * fromBytesLE rest

/-- Big-endian integer of a byte list, `struct.unpack(">H", ...)` / word loads. -/
def fromBytesBE (l : List Nat) : Nat :=
  l.foldl (fun acc b => acc * 256 + b) 0

/-- UTF-8 encoding of one character (Python `str.encode()` per character). -/
def utf8BytesOfChar (c : Char) : List Nat :=
  let n := c.toNat
  if n < 128 then [n]
  else if n < 2048 then [192 ||| (n >>> 6), 128 ||| (n &&& 63)]
  else if n < 65536 then
    [224 ||| (n >>> 12), 128 ||| ((n >>> 6) &&& 63), 128 ||| (n &&& 63)]
  else
    [240 ||| (n >>> 18), 128 ||| ((n >>> 12) &&& 63),
     128 ||| ((n >>> 6) &&& 63), 128 ||| (n &&& 63)]

/-- `str.encode()`: the UTF-8 bytes of a string. -/
def strToBytes (s : String) : List Nat :=
  s.data.foldr (fun c acc => utf8BytesOfChar c ++ acc) []

/-- One step of strict UTF-8 decoding: decode the first scalar value of the
byte list, returning the character and the rest.  Mirrors the validation of
Python `bytes.decode()` (rejects overlong forms, surrogates, values above
0x10FFFF and stray continuation bytes). -/
def utf8DecodeStep : List Nat → Option (Char × List Nat)
  | [] => none
  | b :: rest =>
    if b < 128 then some (Char.ofNat b, rest)
    else if b < 194 then none
    else if b < 224 then
      match rest with
      | c1 :: r2 =>
        if 128 ≤ c1 ∧ c1 < 192 then
          some (Char.ofNat ((b - 192) * 64 + (c1 - 128)), r2)
        else none
      | _ => none
    else if b < 240 then
      match rest with
      | c1 :: c2 :: r2 =>
        let lo1 := if b = 224 then 160 else 128
        let hi1 := if b = 237 then 160 else 192
        if (lo1 ≤ c1 ∧ c1 < hi1) ∧ (128 ≤ c2 ∧ c2 < 192) then
          some (Char.ofNat ((b - 224) * 4096 + (c1 - 128) * 64 + (c2 - 128)), r2)
        else none
      | _ => none
    else if b < 245 then
      match rest with
      | c1 :: c2 :: c3 :: r2 =>
        let lo1 := if b = 240 then 144 else 128
        let hi1 := if b = 244 then 144 else 192
        if (lo1 ≤ c1 ∧ c1 < hi1) ∧ (128 ≤ c2 ∧ c2 < 192) ∧ (128 ≤ c3 ∧ c3 < 192) then
          some (Char.ofNat ((b - 240) * 262144 + (c1 - 128) * 4096 +
                            (c2 - 128) * 64 + (c3 - 128)), r2)
        else none
      | _ => none
    else none

/-- Fuel-driven strict UTF-8 decoder loop (fuel bounds the number of decoded
characters; `bytes.length` characters always suffice). -/
def utf8DecodeAux : Nat → List Nat → Option (List Char)
  | _, [] => some []
  | 0, _ :: _ => none
  | fuel + 1, bs =>
    match utf8DecodeStep bs with
    | none => none
    | some (c, rest) => (utf8DecodeAux fuel rest).map (fun cs => c :: cs)

/-- `bytes.decode()`: strict UTF-8 decoding of a byte list to a string. -/
def utf8Decode (bs : List Nat) : Option String :=
  (utf8DecodeAux bs.length bs).map String.mk

/-- `int(value)` for a plain decimal byte string (the only shape of
content-length value this wire format produces); other forms raise, giving
`none`. -/
def parseDigits (bs : List Nat) : Option Nat :=
  if bs ≠ [] ∧ bs.all (fun b => 48 ≤ b ∧ b ≤ 57) then
    some (bs.foldl (fun acc b => acc * 10 + (b - 48)) 0)
  else none

/-- `int(value)` for a plain decimal string (see `parseDigits`). -/
def parseDigitsStr (s : String) : Option Nat :=
  if s.data ≠ [] ∧ s.data.all (fun c => 48 ≤ c.toNat ∧ c.toNat ≤ 57) then
    some (s.data.foldl (fun acc c => acc * 10 + (c.toNat - 48)) 0)
  else none

/-- Value of the most recent assignment to key `k` in a Python dict built by
successive `d[k] = v` assignments recorded in order: the last occurrence wins. -/
def dictGet (d : List (String × String)) (k : String) : Option String :=
  ((d.filter (fun kv => kv.1 = k)).getLast?).map (fun kv => kv.2)

/-! ## WebSocket frame codec (`src/2 websocket/server.py`) -/

/-- Result of `read_websocket_frame`: the Python function returns the triple
`fin, opcode, payload`. -/
structure Frame where
  fin : Bool
  opcode : Nat
  payload : List Nat
deriving DecidableEq

/-- XOR unmasking loop: `payload[i] ^ masking_key[i % 4]`.  In every reachable
state either `key` has 4 bytes or `raw` is empty (when fewer than 4 bytes
remained for the key, the later payload read returns nothing), so the
`getD` defaults are never used. -/
def maskBytes (key raw : List Nat) : List Nat :=
  (List.range raw.length).map (fun i => raw.getD i 0 ^^^ key.getD (i % 4) 0)

/-- `read_websocket_frame(reader)` over a buffered stream: reads the 2 header
bytes (`struct.unpack("<BB", ...)` fails on a shorter stream), the extended
length for base lengths 126/127 — read little-endian, `struct.unpack("<H")` /
`struct.unpack("<Q")`, exactly as the source does —, the masking key when the
MASK bit is set, then `payload_len` bytes of payload (at most what remains).
Returns the frame and the unread rest of the stream. -/
def read_websocket_frame (s : List Nat) : Option (Frame × List Nat) :=
  match s with
  | b0 :: b1 :: s1 =>
    let fin : Bool := b0 &&& 128 != 0
    let opcode := b0 &&& 15
    let mask : Bool := b1 &&& 128 != 0
    let base := b1 &&& 127
    let ext : Option (Nat × List Nat) :=
      if base = 126 then
        if 2 ≤ s1.length then some (fromBytesLE (s1.take 2), s1.drop 2) else none
      else if base = 127 then
        if 8 ≤ s1.length then some (fromBytesLE (s1.take 8), s1.drop 8) else none
      else some (base, s1)
    match ext with
    | none => none
    | some (plen, s2) =>
      if mask then
        let key := s2.take 4
        let s3 := s2.drop 4
        some (⟨fin, opcode, maskBytes key (s3.take plen)⟩, s3.drop plen)
      else
        some (⟨fin, opcode, s2.take plen⟩, s2.drop plen)
  | _ => none

/-- Outbound event for `build_websocket_frame`: the `text` / `bytes` entries
of the `websocket.send` event dict, each possibly absent. -/
structure WsSendEvent where
  text : Option String
  bytes : Option (List Nat)
deriving DecidableEq

/-- First header byte written by `build_websocket_frame`: FIN plus opcode 1
for a text event, FIN plus opcode 2 for a bytes event, nothing when neither
entry is present (the Python code appends no header byte in that case). -/
def wsHead (e : WsSendEvent) : List Nat :=
  match e.text with
  | some _ => [129]
  | none =>
    match e.bytes with
    | some _ => [130]
    | none => []

/-- Payload chosen by `build_websocket_frame`: the UTF-8 encoding of the text
entry if present, else the bytes entry, else empty. -/
def wsPayloadBytes (e : WsSendEvent) : List Nat :=
  match e.text with
  | some t => strToBytes t
  | none =>
    match e.bytes with
    | some b => b
    | none => []

/-- Length bytes written by `build_websocket_frame`: a single byte for
lengths up to 125, marker 126 plus `to_bytes(2, "big")` when
`len(payload) < 0xFFFF`, else marker 127 plus `to_bytes(8, "big")`. -/
def wsLenBytes (n : Nat) : List Nat :=
  if n ≤ 125 then [n]
  else if n < 65535 then 126 :: toBytesBE 2 n
  else 127 :: toBytesBE 8 n

/-- `build_websocket_frame(event)`: header byte, length encoding, payload. -/
def build_websocket_frame (e : WsSendEvent) : List Nat :=
  wsHead e ++ wsLenBytes (wsPayloadBytes e).length ++ wsPayloadBytes e

/-! ## SHA-1 and base64 (models of `hashlib.sha1` / `base64.b64encode`) -/

/-- Truncation to a 32-bit word. -/
def w32 (n : Nat) : Nat := n % 4294967296

/-- 32-bit left rotation of a word. -/
def rotl (b n : Nat) : Nat := w32 ((n <<< b) ||| (n >>> (32 - b)))

/-- SHA-1 round function. -/
def sha1F (t b c d : Nat) : Nat :=
  if t < 20 then (b &&& c) ||| ((b ^^^ 4294967295) &&& d)
  else if t < 40 then b ^^^ c ^^^ d
  else if t < 60 then (b &&& c) ||| (b &&& d) ||| (c &&& d)
  else b ^^^ c ^^^ d

/-- SHA-1 round constants. -/
def sha1K (t : Nat) : Nat :=
  if t < 20 then 1518500249
  else if t < 40 then 1859775393
  else if t < 60 then 2400959708
  else 3395469782

/-- Extend a 16-word block to the 80-word message schedule. -/
def sha1ScheduleAux : Nat → List Nat → List Nat
  | 0, acc => acc
  | k + 1, acc =>
    let i := acc.length
    let w := rotl 1 (acc.getD (i - 3) 0 ^^^ acc.getD (i - 8) 0 ^^^
                     acc.getD (i - 14) 0 ^^^ acc.getD (i - 16) 0)
    sha1ScheduleAux k (acc ++ [w])

/-- The 16 big-endian 32-bit words of one 64-byte block. -/
def blockWords (block : List Nat) : List Nat :=
  (List.range 16).map (fun i => fromBytesBE ((block.drop (4 * i)).take 4))

/-- One SHA-1 round: rotate the five-word state. -/
def sha1Step (st : Nat × Nat × Nat × Nat × Nat) (tw : Nat × Nat) :
    Nat × Nat × Nat × Nat × Nat :=
  match st, tw with
  | (a, b, c, d, e), (t, w) =>
    (w32 (rotl 5 a + sha1F t b c d + e + sha1K t + w), a, rotl 30 b, c, d)

/-- SHA-1 compression of one 64-byte block. -/
def sha1Compress (h : Nat × Nat × Nat × Nat × Nat) (block : List Nat) :
    Nat × Nat × Nat × Nat × Nat :=
  match h with
  | (h0, h1, h2, h3, h4) =>
    let ws := sha1ScheduleAux 64 (blockWords block)
    match ws.enum.foldl sha1Step (h0, h1, h2, h3, h4) with
    | (a, b, c, d, e) =>
      (w32 (h0 + a), w32 (h1 + b), w32 (h2 + c), w32 (h3 + d), w32 (h4 + e))

/-- Merkle–Damgård padding: 0x80, zeros to 56 mod 64, 8-byte big-endian bit
length. -/
def sha1Pad (m : List Nat) : List Nat :=
  m ++ [128] ++ List.replicate ((119 - m.length % 64) % 64) 0 ++
    toBytesBE 8 (8 * m.length)

/-- Split into 64-byte blocks (fuel-driven; `length + 1` always suffices). -/
def toBlocksAux : Nat → List Nat → List (List Nat)
  | 0, _ => []
  | _, [] => []
  | k + 1, l => l.take 64 :: toBlocksAux k (l.drop 64)

/-- Split a padded message into its 64-byte blocks. -/
def toBlocks (l : List Nat) : List (List Nat) :=
  toBlocksAux (l.length + 1) l

/-- `hashlib.sha1(msg).digest()`: the 20-byte SHA-1 digest. -/
def sha1 (msg : List Nat) : List Nat :=
  match (toBlocks (sha1Pad msg)).foldl sha1Compress
      (1732584193, 4023233417, 2562383102, 271733878, 3285377520) with
  | (h0, h1, h2, h3, h4) =>
    toBytesBE 4 h0 ++ toBytesBE 4 h1 ++ toBytesBE 4 h2 ++
    toBytesBE 4 h3 ++ toBytesBE 4 h4

/-- The base64 alphabet. -/
def b64Char (n : Nat) : Char :=
  "ABCDEFGHIJKLMNOPQRSTUVWXYZabcdefghijklmnopqrstuvwxyz0123456789+/".data.getD n 'A'

/-- `base64.b64encode`: standard base64 with `=` padding. -/
def base64Encode : List Nat → List Char
  | a :: b :: c :: rest =>
    let n := a * 65536 + b * 256 + c
    b64Char (n / 262144) :: b64Char (n / 4096 % 64) :: b64Char (n / 64 % 64) ::
      b64Char (n % 64) :: base64Encode rest
  | [a, b] =>
    let n := a * 65536 + b * 256
    [b64Char (n / 262144), b64Char (n / 4096 % 64), b64Char (n / 64 % 64), '=']
  | [a] =>
    let n := a * 65536
    [b64Char (n / 262144), b64Char (n / 4096 % 64), '=', '=']
  | [] => []

/-- The accept-token computation inlined in `build_upgrade_response`:
base64 of the SHA-1 digest of the UTF-8 bytes of the client key concatenated
with the fixed GUID. -/
def computeAcceptToken (key : String) : String :=
  String.mk (base64Encode (sha1 (strToBytes
    (key ++ "258EAFA5-E914-47DA-95CA-C5AB0DC85B11"))))

/-! ## HTTP scope building and exchange (`src/server.py`) -/

/-- `StreamReader.readline()` on a buffered, EOF-terminated stream: bytes up
to and including the first newline, or everything that remains (so `b""`
exactly when the stream is exhausted). -/
def readline (s : List Nat) : List Nat × List Nat :=
  match s.findIdx? (fun b => b = 10) with
  | some i => (s.take (i + 1), s.drop (i + 1))
  | none => (s, [])

/-- Python `bytes` whitespace (`bytes.rstrip` default set). -/
def isPySpaceByte (b : Nat) : Bool :=
  b = 32 || b = 9 || b = 10 || b = 13 || b = 11 || b = 12

/-- `bytes.rstrip()`. -/
def rstripBytes (s : List Nat) : List Nat :=
  (s.reverse.dropWhile isPySpaceByte).reverse

/-- Python `str` whitespace (the code points for which `str.isspace()` holds,
used by `str.rstrip()`). -/
def isPySpaceChar (c : Char) : Bool :=
  [9, 10, 11, 12, 13, 28, 29, 30, 31, 32, 133, 160, 5760,
   8192, 8193, 8194, 8195, 8196, 8197, 8198, 8199, 8200, 8201, 8202,
   8232, 8233, 8239, 8287, 12288].contains c.toNat

/-- `str.rstrip()`. -/
def rstripStr (s : String) : String :=
  String.mk (s.data.reverse.dropWhile isPySpaceChar).reverse

/-- `bytes.lower()`: ASCII lowercasing of each byte. -/
def lowerBytes (s : List Nat) : List Nat :=
  s.map (fun b => if 65 ≤ b ∧ b ≤ 90 then b + 32 else b)

/-- First index in `s` at which `pat` occurs as a contiguous sublist. -/
def findSubseq (pat s : List Nat) : Option Nat :=
  (List.range (s.length + 1)).find? (fun i => pat.isPrefixOf (s.drop i))

/-- `header.split(b": ", 1)` unpacked into exactly two pieces: key before the
first `": "`, value after it; fails when no separator occurs. -/
def splitHeaderLine (h : List Nat) : Option (List Nat × List Nat) :=
  (findSubseq [58, 32] h).map (fun i => (h.take i, h.drop (i + 2)))

/-- Errors surfaced while building a scope (Python exceptions). -/
inductive ParseErr where
  | malformedRequestLine
  | malformedHeaderLine
  | decodeFailed
  | fuel
deriving DecidableEq

/-- `urlparse(path)` restricted to origin-form request targets: characters
after the first `#` belong to the fragment; of the rest, characters after the
first `?` are the query. -/
def urlPathQuery (target : String) : String × String :=
  let beforeFrag := target.data.takeWhile (fun c => c ≠ '#')
  match beforeFrag.findIdx? (fun c => c = '?') with
  | some i => (String.mk (beforeFrag.take i), String.mk (beforeFrag.drop (i + 1)))
  | none => (String.mk beforeFrag, "")

/-- The scope dict built by `build_scope` in `src/server.py` (the constant
entries `"type": "http"`, `"asgi"`, `"scheme"` are carried as fields too). -/
structure Scope where
  type : String
  http_version : String
  method : String
  path : String
  query_string : List Nat
  headers : List (List Nat × List Nat)
deriving DecidableEq

namespace Server

/-- The header loop of `build_scope_headers`: read a line, `rstrip` it, stop
at the blank line, split each header at `": "`, lowercase the key.  Fuel
bounds the iteration count; `length + 1` always suffices because every
non-final iteration consumes at least one byte. -/
def build_scope_headers : Nat → List Nat →
    Except ParseErr (List (List Nat × List Nat) × List Nat)
  | 0, _ => .error .fuel
  | fuel + 1, s =>
    let (header_line, rest) := readline s
    let header := rstripBytes header_line
    if header = [] then .ok ([], rest)
    else
      match splitHeaderLine header with
      | none => .error .malformedHeaderLine
      | some (key, value) =>
        (build_scope_headers fuel rest).map
          (fun hr => ((lowerBytes key, value) :: hr.1, hr.2))

/-- `build_scope(reader)` of `src/server.py`.  Returns `none` (the `{}`
sentinel) when the first read is empty — the client closed the connection —
together with the unread rest of the stream; otherwise parses
`METHOD SP TARGET SP PROTOCOL` (exactly three space-separated tokens, else
the unpacking raises), splits the protocol at `/` (exactly two pieces), and
reads the header block. -/
def build_scope (s : List Nat) : Except ParseErr (Option Scope × List Nat) :=
  let (request_line, s1) := readline s
  if request_line = [] then .ok (none, s1)
  else
    match utf8Decode request_line with
    | none => .error .decodeFailed
    | some req =>
      match (rstripStr req).splitOn " " with
      | [method, target, protocol] =>
        match protocol.splitOn "/" with
        | [_, http_version] =>
          let pq := urlPathQuery target
          (build_scope_headers (s1.length + 1) s1).map (fun hr =>
            (some { type := "http", http_version := http_version,
                    method := method, path := pq.1,
                    query_string := strToBytes pq.2, headers := hr.1 }, hr.2))
        | _ => .error .malformedRequestLine
      | _ => .error .malformedRequestLine

/-- `get_content_length(scope)`: `int(value)` of the first
`content-length` header, `0` when absent (`none` when `int()` raises). -/
def get_content_length (headers : List (List Nat × List Nat)) : Option Nat :=
  match headers.find? (fun kv => kv.1 = strToBytes "content-length") with
  | some kv => parseDigits kv.2
  | none => some 0

/-- The `http.request` event dict returned by `receive` (its `"type"` entry
is carried as a field, always `"http.request"`). -/
structure HttpRequestEvent where
  type : String
  body : List Nat
  more_body : Bool
deriving DecidableEq

/-- The `receive` closure of `handler`: reads `content-length` bytes of body
from the stream (at most what remains) and returns the event plus the unread
rest of the stream.  It captures no mutable state, so every call behaves this
way. -/
def receive (headers : List (List Nat × List Nat)) (s : List Nat) :
    Option (HttpRequestEvent × List Nat) :=
  (get_content_length headers).map (fun n =>
    ({ type := "http.request", body := s.take n, more_body := false },
     s.drop n))

end Server

/-- The reason-phrase table of Python `http.HTTPStatus`; `HTTPStatus(code)`
raises `ValueError` for codes outside the table, giving `none`.  (418 is
included with its `http.HTTPStatus` phrase.) -/
def httpStatusPhrase (n : Nat) : Option String :=
  List.lookup n
    [(100, "Continue"), (101, "Switching Protocols"), (102, "Processing"),
     (103, "Early Hints"),
     (200, "OK"), (201, "Created"), (202, "Accepted"),
     (203, "Non-Authoritative Information"), (204, "No Content"),
     (205, "Reset Content"), (206, "Partial Content"), (207, "Multi-Status"),
     (208, "Already Reported"), (226, "IM Used"),
     (300, "Multiple Choices"), (301, "Moved Permanently"), (302, "Found"),
     (303, "See Other"), (304, "Not Modified"), (305, "Use Proxy"),
     (307, "Temporary Redirect"), (308, "Permanent Redirect"),
     (400, "Bad Request"), (401, "Unauthorized"), (402, "Payment Required"),
     (403, "Forbidden"), (404, "Not Found"), (405, "Method Not Allowed"),
     (406, "Not Acceptable"), (407, "Proxy Authentication Required"),
     (408, "Request Timeout"), (409, "Conflict"), (410, "Gone"),
     (411, "Length Required"), (412, "Precondition Failed"),
     (413, "Request Entity Too Large"), (414, "Request-URI Too Long"),
     (415, "Unsupported Media Type"), (416, "Requested Range Not Satisfiable"),
     (417, "Expectation Failed"), (418, "I\x27m a Teapot"),
     (421, "Misdirected Request"), (422, "Unprocessable Entity"),
     (423, "Locked"), (424, "Failed Dependency"), (425, "Too Early"),
     (426, "Upgrade Required"), (428, "Precondition Required"),
     (429, "Too Many Requests"), (431, "Request Header Fields Too Large"),
     (451, "Unavailable For Legal Reasons"),
     (500, "Internal Server Error"), (501, "Not Implemented"),
     (502, "Bad Gateway"), (503, "Service Unavailable"),
     (504, "Gateway Timeout"), (505, "HTTP Version Not Supported"),
     (506, "Variant Also Negotiates"), (507, "Insufficient Storage"),
     (508, "Loop Detected"), (510, "Not Extended"),
     (511, "Network Authentication Required")]

namespace Server

/-- `build_http_headers(scope, event)` of `src/server.py`: the status line
`b" ".join([b"HTTP/" + version, str(code), phrase]) + b"\r\n"`, one
`key: value\r\n` line per response header, then the blank `\r\n`; fails
(`HTTPStatus(...)` raises) for a status outside the table. -/
def build_http_headers (http_version : String) (status : Nat)
    (hdrs : List (List Nat × List Nat)) : Option (List (List Nat)) :=
  (httpStatusPhrase status).map (fun phrase =>
    strToBytes ("HTTP/" ++ http_version ++ " " ++ toString status ++ " " ++
                phrase ++ "\r\n") ::
    (hdrs.map (fun kv => kv.1 ++ strToBytes ": " ++ kv.2 ++ strToBytes "\r\n") ++
     [strToBytes "\r\n"]))

/-- Events handled by the `send` closure of `handler`. -/
inductive HttpSendEvent where
  | start (status : Nat) (headers : List (List Nat × List Nat))
  | body (body : List Nat) (more_body : Bool)
deriving DecidableEq

/-- Mutable state captured by the `send` closure: the buffered response
headers (the nonlocal `headers` list), the bytes written to the transport so
far, and whether the connection was closed. -/
structure SendState where
  response_headers : List (List Nat)
  wire : List Nat
  closed : Bool
deriving DecidableEq

/-- Starting state of one exchange: nothing buffered, nothing written. -/
def initialSendState : SendState := ⟨[], [], false⟩

/-- One call of the `send` closure (`src/server.py`, lines 81-100):
`http.response.start` builds and buffers the header lines (failing for an
unknown status); `http.response.body` first flushes the buffered header
lines if any (`writer.writelines`) and empties the buffer, writes the body
bytes, and closes the connection when `more_body` is false. -/
def send (http_version : String) (st : SendState) (e : HttpSendEvent) :
    Option SendState :=
  match e with
  | .start status hdrs =>
    (build_http_headers http_version status hdrs).map
      (fun h => { st with response_headers := h })
  | .body b more =>
    let st1 :=
      if st.response_headers = [] then st
      else { st with wire := st.wire ++ st.response_headers.flatten,
                     response_headers := [] }
    let st2 := { st1 with wire := st1.wire ++ b }
    some (if more then st2 else { st2 with closed := true })

/-- Folding a sequence of application `send` calls from the initial state. -/
def sendRun (http_version : String) (evs : List HttpSendEvent) :
    Option SendState :=
  evs.foldlM (send http_version) initialSendState

/-- Whether `handler` invokes the application callback for a given stream:
it builds the scope and calls `app` exactly when the scope is not the `{}`
sentinel (`if scope:`). -/
def handler_app_invoked (s : List Nat) : Except ParseErr Bool :=
  (build_scope s).map (fun os => os.1.isSome)

end Server

/-! ## WebSocket exchange (`src/2 websocket/server.py`) -/

namespace WS

/-- The `receive` closure of `http_handler` in the websocket revision: the
content length comes from `scope["server.dict_headers"]`, the dict built by
assigning every header in order — so a duplicate header's **last**
occurrence wins. -/
def http_receive (dict_headers : List (String × String)) (s : List Nat) :
    Option (Server.HttpRequestEvent × List Nat) :=
  let n? :=
    match dictGet dict_headers "content-length" with
    | none => some 0
    | some v => parseDigitsStr v
  n?.map (fun n =>
    ({ type := "http.request", body := s.take n, more_body := false },
     s.drop n))

/-- `build_upgrade_response(scope)`: the fixed 101 status line, the three
handshake headers (the accept token computed from the client's
`sec-websocket-key`), and the blank line, each `"\r\n"`-terminated and
encoded; fails (KeyError) when the key header is absent from the dict. -/
def build_upgrade_response (dict_headers : List (String × String)) :
    Option (List (List Nat)) :=
  (dictGet dict_headers "sec-websocket-key").map (fun i =>
    ["HTTP/1.1 101 Switching Protocols", "Upgrade: websocket",
     "Connection: Upgrade", "Sec-WebSocket-Accept: " ++ computeAcceptToken i,
     ""].map (fun line => strToBytes (line ++ "\r\n")))

/-- Bytes written by `send` for a `websocket.accept` event
(`writer.writelines(response)`). -/
def send_accept_wire (dict_headers : List (String × String)) :
    Option (List Nat) :=
  (build_upgrade_response dict_headers).map List.flatten

/-- The nonlocal `fragmented_payload` dict of `websocket_handler`: empty, or
holding a `"text"` entry, or holding a `"bytes"` entry. -/
inductive FragState where
  | empty
  | text (t : String)
  | bin (b : List Nat)
deriving DecidableEq

/-- Events returned by the websocket `receive` closure (`websocket.connect`,
`websocket.receive` with its optional `text` / `bytes` entries,
`websocket.disconnect`). -/
inductive WsEvent where
  | connect
  | receive (text : Option String) (bytes : Option (List Nat))
  | disconnect (code : Nat)
deriving DecidableEq

/-- Errors raised inside the websocket `receive` closure. -/
inductive WsErr where
  | frameShort     -- struct.error while reading the frame header / lengths
  | keyError       -- continuation frame with no open fragment
  | unicodeError   -- payload.decode() failed
  | structError    -- close payload length other than 0 or 2
  | fuel
deriving DecidableEq

/-- The `websocket.receive` event built from the accumulator by
`{"type": "websocket.receive", **fragmented_payload}`. -/
def mkReceive : FragState → WsEvent
  | .empty => .receive none none
  | .text t => .receive (some t) none
  | .bin b => .receive none (some b)

/-- The frame loop of the `receive` closure: read one frame, dispatch on the
opcode exactly as the `if/elif` chain does (continuation appends to the open
fragment — KeyError when none is open —; opcode 1 and 2 restart the
accumulator; opcode 8 returns a disconnect immediately, leaving the
accumulator untouched, with code 1005 for an empty payload and the
`struct.unpack(">H", payload)` value for a 2-byte payload — any other
nonempty payload length makes `unpack` raise); on FIN return the
`websocket.receive` event built from the accumulator, else recurse.  Fuel
bounds the recursion; every frame consumes at least two bytes, so
`length + 1` always suffices. -/
def receive_frames : Nat → FragState → List Nat →
    Except WsErr (WsEvent × FragState × List Nat)
  | 0, _, _ => .error .fuel
  | fuel + 1, frag, s =>
    match read_websocket_frame s with
    | none => .error .frameShort
    | some (f, rest) =>
      if f.opcode = 8 then
        if f.payload = [] then .ok (.disconnect 1005, frag, rest)
        else if f.payload.length = 2 then
          .ok (.disconnect (fromBytesBE f.payload), frag, rest)
        else .error .structError
      else
        let frag? : Except WsErr FragState :=
          if f.opcode = 0 then
            match frag with
            | .text t =>
              match utf8Decode f.payload with
              | none => .error .unicodeError
              | some p => .ok (.text (t ++ p))
            | .bin b => .ok (.bin (b ++ f.payload))
            | .empty => .error .keyError
          else if f.opcode = 1 then
            match utf8Decode f.payload with
            | none => .error .unicodeError
            | some p => .ok (.text p)
          else if f.opcode = 2 then .ok (.bin f.payload)
          else .ok frag
        match frag? with
        | .error e => .error e
        | .ok frag1 =>
          if f.fin then .ok (mkReceive frag1, frag1, rest)
          else receive_frames fuel frag1 rest

/-- One call of the websocket `receive` closure: before `connect_sent` it
returns `websocket.connect` without touching the wire; afterwards it runs the
frame loop.  Returns the event together with the updated
`(connect_sent, fragmented_payload)` state and the unread stream. -/
def receive (connect_sent : Bool) (frag : FragState) (s : List Nat) :
    Except WsErr (WsEvent × Bool × FragState × List Nat) :=
  if connect_sent = false then .ok (.connect, true, frag, s)
  else (receive_frames (s.length + 1) frag s).map
    (fun efr => (efr.1, true, efr.2.1, efr.2.2))

end WS

/-! ## Helper lemmas -/

theorem and_127_of_le {n : Nat} (h : n ≤ 125) : n &&& 127 = n := by
  have h7 : (127 : Nat) = 2 ^ 7 - 1 := by norm_num
  rw [h7, Nat.and_pow_two_sub_one_eq_mod]
  exact Nat.mod_eq_of_lt (by norm_num; omega)

theorem and_128_of_le {n : Nat} (h : n ≤ 125) : n &&& 128 = 0 := by
  apply Nat.eq_of_testBit_eq
  intro i
  rw [Nat.testBit_and]
  rcases eq_or_ne i 7 with rfl | hne
  · have hn : n.testBit 7 = false := Nat.testBit_lt_two_pow (by norm_num; omega)
    simp [hn]
  · have h2 : (128 : Nat) = 2 ^ 7 := by norm_num
    have h8 : (128 : Nat).testBit i = false := by
      rw [h2, Nat.testBit_two_pow]
      simp [Ne.symm hne]
    simp [h8]

/-- Decoding a frame whose second byte is a direct payload length `≤ 125`:
the payload is the next `length` bytes and the rest of the stream is left
unread. -/
theorem read_frame_small (b0 : Nat) (p rest : List Nat) (h : p.length ≤ 125) :
    read_websocket_frame (b0 :: p.length :: (p ++ rest)) =
      some (⟨b0 &&& 128 != 0, b0 &&& 15, p⟩, rest) := by
  unfold read_websocket_frame
  simp only [and_127_of_le h, and_128_of_le h]
  rw [if_neg (by omega), if_neg (by omega)]
  simp [List.take_left' rfl, List.drop_left' rfl]

/-- Decoding a frame with the 126 length marker: the two extended length
bytes are read little-endian; when that (misread) length is at least the
remaining payload, the whole remainder is returned as payload. -/
theorem read_frame_ext16 (b0 hi lo : Nat) (p : List Nat)
    (h : p.length ≤ hi + 256 * lo) :
    read_websocket_frame (b0 :: 126 :: hi :: lo :: p) =
      some (⟨b0 &&& 128 != 0, b0 &&& 15, p⟩, []) := by
  unfold read_websocket_frame
  norm_num [fromBytesLE, List.take_succ_cons, List.drop_succ_cons]
  rw [if_pos (show (126 : Nat) &&& 127 = 126 from rfl)]
  rw [show ((126 : Nat) &&& 128) = 0 from rfl]
  norm_num
  omega

/-- Decoding a frame with the 127 length marker, analogously. -/
theorem read_frame_ext64 (b0 a0 a1 a2 a3 a4 a5 a6 a7 : Nat) (p : List Nat)
    (h : p.length ≤ fromBytesLE [a0, a1, a2, a3, a4, a5, a6, a7]) :
    read_websocket_frame
        (b0 :: 127 :: a0 :: a1 :: a2 :: a3 :: a4 :: a5 :: a6 :: a7 :: p) =
      some (⟨b0 &&& 128 != 0, b0 &&& 15, p⟩, []) := by
  unfold read_websocket_frame
  simp only [fromBytesLE] at h
  norm_num [fromBytesLE, List.take_succ_cons, List.drop_succ_cons]
  rw [show ((127 : Nat) &&& 128) = 0 from rfl]
  norm_num
  omega

/-- Round-trip of the codec at the claimed boundary payload lengths, for an
arbitrary FIN-bit header byte. -/
theorem roundtrip_at_lengths (b0 : Nat) (hb : (b0 &&& 128 != 0) = true)
    (p : List Nat)
    (hlen : p.length = 0 ∨ p.length = 125 ∨ p.length = 126 ∨
            p.length = 65535 ∨ p.length = 65536) :
    read_websocket_frame (b0 :: (wsLenBytes p.length ++ p)) =
      some (⟨true, b0 &&& 15, p⟩, []) := by
  have small : ∀ h : p.length ≤ 125,
      read_websocket_frame (b0 :: (wsLenBytes p.length ++ p)) =
        some (⟨true, b0 &&& 15, p⟩, []) := by
    intro h
    have hlb : wsLenBytes p.length = [p.length] := by
      unfold wsLenBytes
      rw [if_pos h]
    rw [hlb]
    have h2 := read_frame_small b0 p [] h
    rw [List.append_nil] at h2
    simpa [hb] using h2
  rcases hlen with h | h | h | h | h
  · exact small (by omega)
  · exact small (by omega)
  · have hlb : wsLenBytes p.length = [126, 0, 126] := by
      rw [h]; norm_num [wsLenBytes, toBytesBE]
    rw [hlb]
    have h2 := read_frame_ext16 b0 0 126 p (by omega)
    simpa [hb] using h2
  · have hlb : wsLenBytes p.length = [127, 0, 0, 0, 0, 0, 0, 255, 255] := by
      rw [h]; norm_num [wsLenBytes, toBytesBE]
    rw [hlb]
    have h2 := read_frame_ext64 b0 0 0 0 0 0 0 255 255 p
      (by norm_num [fromBytesLE]; omega)
    simpa [hb] using h2
  · have hlb : wsLenBytes p.length = [127, 0, 0, 0, 0, 0, 1, 0, 0] := by
      rw [h]; norm_num [wsLenBytes, toBytesBE]
    rw [hlb]
    have h2 := read_frame_ext64 b0 0 0 0 0 0 1 0 0 p
      (by norm_num [fromBytesLE]; omega)
    simpa [hb] using h2

/-- C1: for every text or binary `websocket.send` message whose payload
length is 0, 125, 126, 65535 or 65536, decoding the bytes produced by
`build_websocket_frame` with `read_websocket_frame` yields the message back:
the same payload bytes (the UTF-8 bytes of the text for a text message),
the FIN bit set, opcode 1 for text and 2 for binary, with the whole stream
consumed. -/
theorem C1_encode_decode_roundtrip (e : WsSendEvent)
    (he : e.text.isSome ∨ e.bytes.isSome)
    (hlen : (wsPayloadBytes e).length = 0 ∨ (wsPayloadBytes e).length = 125 ∨
            (wsPayloadBytes e).length = 126 ∨ (wsPayloadBytes e).length = 65535 ∨
            (wsPayloadBytes e).length = 65536) :
    read_websocket_frame (build_websocket_frame e) =
      some (⟨true, if e.text.isSome then 1 else 2, wsPayloadBytes e⟩, []) := by
  rcases e with ⟨t, b⟩
  rcases t with _ | t
  · rcases b with _ | b
    · rcases he with h | h <;> simp at h
    · have hp : wsPayloadBytes ⟨none, some b⟩ = b := rfl
      rw [hp] at hlen
      have h2 := roundtrip_at_lengths 130 (by decide) b hlen
      simpa [build_websocket_frame, wsHead, wsPayloadBytes] using h2
  · have hp : wsPayloadBytes ⟨some t, b⟩ = strToBytes t := rfl
    rw [hp] at hlen
    have h2 := roundtrip_at_lengths 129 (by decide) (strToBytes t) hlen
    simpa [build_websocket_frame, wsHead, wsPayloadBytes] using h2

/-- Witness for C1 at a concrete binary message of payload length 126. -/
theorem C1_witness :
    ((⟨none, some (List.replicate 126 7)⟩ : WsSendEvent).text.isSome ∨
     (⟨none, some (List.replicate 126 7)⟩ : WsSendEvent).bytes.isSome) ∧
    (wsPayloadBytes ⟨none, some (List.replicate 126 7)⟩).length = 126 ∧
    read_websocket_frame
        (build_websocket_frame ⟨none, some (List.replicate 126 7)⟩) =
      some (⟨true, 2, List.replicate 126 7⟩, []) := by
  refine ⟨Or.inr rfl, by simp [wsPayloadBytes], ?_⟩
  have h := C1_encode_decode_roundtrip ⟨none, some (List.replicate 126 7)⟩
    (Or.inr rfl) (by simp [wsPayloadBytes])
  simpa using h

/-- C2 counterexample: a payload of exactly 65535 bytes is encoded with
length marker byte 127, not 126 as the claim states. -/
theorem C2_counterexample :
    (build_websocket_frame ⟨none, some (List.replicate 65535 0)⟩).get? 1 =
      some 127 ∧ (127 : Nat) ≠ 126 := by
  refine ⟨?_, by decide⟩
  have h1 : build_websocket_frame ⟨none, some (List.replicate 65535 0)⟩ =
      [130] ++ wsLenBytes (List.replicate 65535 (0 : Nat)).length ++
        List.replicate 65535 0 := rfl
  rw [h1, List.length_replicate]
  have h3 : wsLenBytes 65535 = 127 :: toBytesBE 8 65535 := by
    norm_num [wsLenBytes]
  rw [h3]
  rfl

/-- C2 (amended): `build_websocket_frame` encodes the payload length as a
single byte when it is at most 125, as marker byte 126 followed by the
2-byte big-endian length when `126 <= length < 65535`, and as marker byte
127 followed by the 8-byte big-endian length for every length >= 65535 (in
particular a payload of exactly 65535 bytes uses marker 127). -/
theorem C2_length_encoding (e : WsSendEvent) :
    build_websocket_frame e =
      wsHead e ++
      (if (wsPayloadBytes e).length ≤ 125 then [(wsPayloadBytes e).length]
       else if (wsPayloadBytes e).length < 65535 then
         [126, (wsPayloadBytes e).length / 256, (wsPayloadBytes e).length % 256]
       else
         [127, (wsPayloadBytes e).length / 256 ^ 7 % 256,
          (wsPayloadBytes e).length / 256 ^ 6 % 256,
          (wsPayloadBytes e).length / 256 ^ 5 % 256,
          (wsPayloadBytes e).length / 256 ^ 4 % 256,
          (wsPayloadBytes e).length / 256 ^ 3 % 256,
          (wsPayloadBytes e).length / 256 ^ 2 % 256,
          (wsPayloadBytes e).length / 256 % 256,
          (wsPayloadBytes e).length % 256]) ++ wsPayloadBytes e := by
  unfold build_websocket_frame wsLenBytes
  by_cases h1 : (wsPayloadBytes e).length ≤ 125
  · simp [h1]
  · by_cases h2 : (wsPayloadBytes e).length < 65535
    · have hd : (wsPayloadBytes e).length / 256 % 256 =
          (wsPayloadBytes e).length / 256 := Nat.mod_eq_of_lt (by omega)
      simp [h1, h2, toBytesBE, hd]
    · simp [h1, h2, toBytesBE, Nat.div_div_eq_div_mul]

/-- C3: the accept token is a deterministic function of the
`sec-websocket-key` header — base64 of the SHA-1 digest of the UTF-8 bytes
of the client key concatenated with the fixed GUID — and for the RFC 6455
sample key `"dGhlIHNhbXBsZSBub25jZQ=="` the token embedded in the
`Sec-WebSocket-Accept` response header equals
`"s3pPLMBiTxaQ9kYGzzhZRbK+xOo="`. -/
theorem C3_accept_token :
    computeAcceptToken "dGhlIHNhbXBsZSBub25jZQ==" =
      "s3pPLMBiTxaQ9kYGzzhZRbK+xOo=" ∧
    WS.build_upgrade_response [("sec-websocket-key", "dGhlIHNhbXBsZSBub25jZQ==")] =
      some [strToBytes "HTTP/1.1 101 Switching Protocols\r\n",
            strToBytes "Upgrade: websocket\r\n",
            strToBytes "Connection: Upgrade\r\n",
            strToBytes "Sec-WebSocket-Accept: s3pPLMBiTxaQ9kYGzzhZRbK+xOo=\r\n",
            strToBytes "\r\n"] := by
  constructor
  · decide
  · decide

/-- Reduction of a monadic bind on a present optional value. -/
theorem optBindSome {α β : Type} (a : α) (f : α → Option β) :
    (some a >>= f) = f a := rfl

/-- Folding `http.response.body` events from a state whose header buffer is
already empty: body bytes are appended to the wire in order and the
connection is closed exactly when some body event has `more_body = false`. -/
theorem send_body_fold (hv : String) (w : List Nat) (c : Bool)
    (bodies : List (List Nat × Bool)) :
    (bodies.map (fun bm => Server.HttpSendEvent.body bm.1 bm.2)).foldlM
        (Server.send hv) ⟨[], w, c⟩ =
      some ⟨[], w ++ (bodies.map Prod.fst).flatten,
            c || bodies.any (fun bm => !bm.2)⟩ := by
  induction bodies generalizing w c with
  | nil => simp
  | cons bm rest ih =>
    rcases bm with ⟨b, m⟩
    cases m
    · simp only [List.map_cons, List.foldlM_cons]
      rw [show Server.send hv ⟨[], w, c⟩ (.body b false) =
            some ⟨[], w ++ b, true⟩ from by simp [Server.send]]
      simp only [optBindSome]
      rw [ih (w ++ b) true]
      simp [List.append_assoc]
    · simp only [List.map_cons, List.foldlM_cons]
      rw [show Server.send hv ⟨[], w, c⟩ (.body b true) =
            some ⟨[], w ++ b, c⟩ from by simp [Server.send]]
      simp only [optBindSome]
      rw [ih (w ++ b) c]
      simp [List.append_assoc]

/-- C4: in an HTTP exchange consisting of one `http.response.start` followed
by a nonempty sequence of `http.response.body` events, nothing is written to
the wire by the start event alone (and the connection is not closed by it);
the serialized status line and headers appear exactly once, immediately
before the bytes of the first body event; and the connection is closed
exactly when a body event with `more_body = false` is processed. -/
theorem C4_response_buffering (hv : String) (status : Nat) (phrase : String)
    (hdrs : List (List Nat × List Nat)) (b1 : List Nat) (m1 : Bool)
    (rest : List (List Nat × Bool))
    (hphrase : httpStatusPhrase status = some phrase)
    (hmid : ∀ bm ∈ (((b1, m1) :: rest : List (List Nat × Bool))).dropLast,
        bm.2 = true) :
    (Server.sendRun hv [.start status hdrs]).map Server.SendState.wire =
      some [] ∧
    (Server.sendRun hv [.start status hdrs]).map Server.SendState.closed =
      some false ∧
    Server.sendRun hv
        (.start status hdrs ::
          ((b1, m1) :: rest).map (fun bm => .body bm.1 bm.2)) =
      some ⟨[],
        (strToBytes ("HTTP/" ++ hv ++ " " ++ toString status ++ " " ++
             phrase ++ "\r\n") ::
           (hdrs.map (fun kv =>
              kv.1 ++ strToBytes ": " ++ kv.2 ++ strToBytes "\r\n") ++
            [strToBytes "\r\n"])).flatten ++
          (b1 ++ (rest.map Prod.fst).flatten),
        !m1 || rest.any (fun bm => !bm.2)⟩ := by
  have hstart : Server.send hv Server.initialSendState
      (.start status hdrs) =
        some ⟨strToBytes ("HTTP/" ++ hv ++ " " ++ toString status ++ " " ++
             phrase ++ "\r\n") ::
           (hdrs.map (fun kv =>
              kv.1 ++ strToBytes ": " ++ kv.2 ++ strToBytes "\r\n") ++
            [strToBytes "\r\n"]), [], false⟩ := by
    simp [Server.send, Server.build_http_headers, hphrase,
      Server.initialSendState]
  refine ⟨?_, ?_, ?_⟩
  · simp [Server.sendRun, hstart]
  · simp [Server.sendRun, hstart]
  · simp only [Server.sendRun, List.map_cons, List.foldlM_cons, hstart,
      optBindSome]
    rw [show ∀ H T, Server.send hv ⟨H :: T, [], false⟩ (.body b1 m1) =
          some ⟨[], (H :: T).flatten ++ b1, !m1⟩ from by
      intro H T
      cases m1 <;> simp [Server.send]]
    simp only [optBindSome]
    rw [send_body_fold]
    simp [List.append_assoc]

/-- Witness for C4: status 200 with one streamed chunk and a final chunk. -/
theorem C4_witness :
    httpStatusPhrase 200 = some "OK" ∧
    Server.sendRun "1.1"
        [.start 200 [], .body [72] true, .body [33] false] =
      some ⟨[], strToBytes "HTTP/1.1 200 OK\r\n\r\n" ++ [72, 33], true⟩ := by
  refine ⟨by decide, ?_⟩
  have h := C4_response_buffering "1.1" 200 "OK" [] [72] true [([33], false)]
    (by decide) (by simp)
  have h2 := h.2.2
  rw [show (Server.HttpSendEvent.start 200 [] ::
        ([([72], true), ([33], false)] : List (List Nat × Bool)).map
          (fun bm => Server.HttpSendEvent.body bm.1 bm.2)) =
      [.start 200 [], .body [72] true, .body [33] false] from rfl] at h2
  rw [h2]
  decide

/-- C5: when the first read from the stream is empty (the client closed the
connection before sending a request line — on the buffered stream model this
means the stream is empty), `build_scope` returns the `{}` sentinel, the
application callback is not invoked, and no error is raised. -/
theorem C5_idle_close (s : List Nat) (h : (readline s).1 = []) :
    Server.build_scope s = .ok (none, []) ∧
    Server.handler_app_invoked s = .ok false := by
  have hs : s = [] := by
    cases s with
    | nil => rfl
    | cons b rest =>
      exfalso
      unfold readline at h
      cases hfind : (b :: rest).findIdx? (fun x => x = 10) with
      | none => simp [hfind] at h
      | some i => simp [hfind, List.take_succ_cons] at h
  subst hs
  exact ⟨rfl, rfl⟩

/-- Witness for C5 at the empty stream. -/
theorem C5_witness :
    (readline []).1 = [] ∧
    Server.build_scope [] = .ok (none, []) ∧
    Server.handler_app_invoked [] = .ok false :=
  ⟨rfl, (C5_idle_close [] rfl).1, (C5_idle_close [] rfl).2⟩

/-- One frame-loop step on an unmasked close frame (opcode 8): the
accumulator is bypassed and left untouched, and the result does not depend
on the FIN bit or on the remaining fuel. -/
theorem close_frame_step (b0 : Nat) (hb8 : b0 &&& 15 = 8) (frag : WS.FragState)
    (p : List Nat) (hp : p.length ≤ 125) (k : Nat) :
    WS.receive_frames (k + 1) frag (b0 :: p.length :: p) =
      (if p = [] then .ok (.disconnect 1005, frag, [])
       else if p.length = 2 then .ok (.disconnect (fromBytesBE p), frag, [])
       else .error .structError) := by
  have r := read_frame_small b0 p [] hp
  rw [List.append_nil] at r
  simp only [WS.receive_frames, r, hb8]
  simp

/-- C7 (amended): an inbound close frame is handled immediately, bypassing
the fragment accumulator (which is returned unchanged) and regardless of the
FIN bit: an empty close payload yields `websocket.disconnect` with code
1005; a payload of exactly two bytes yields the big-endian code they encode;
and any other nonempty payload length makes `struct.unpack(">H", payload)`
raise instead of decoding the first two bytes. -/
theorem C7_close_frames (fin : Bool) (frag : WS.FragState) (p : List Nat)
    (hp : p.length ≤ 125) :
    (p = [] →
      WS.receive true frag ((if fin then 136 else 8) :: p.length :: p) =
        .ok (.disconnect 1005, true, frag, [])) ∧
    (∀ a b, p = [a, b] →
      WS.receive true frag ((if fin then 136 else 8) :: p.length :: p) =
        .ok (.disconnect (256 * a + b), true, frag, [])) ∧
    (p ≠ [] → p.length ≠ 2 →
      WS.receive true frag ((if fin then 136 else 8) :: p.length :: p) =
        .error .structError) := by
  have hb8 : (if fin then 136 else 8) &&& 15 = 8 := by cases fin <;> decide
  have hlen : (((if fin then 136 else 8) : Nat) :: p.length :: p).length =
      (p.length + 1) + 1 := by simp
  have hstep := close_frame_step (if fin then 136 else 8) hb8 frag p hp
    (p.length + 1 + 1)
  refine ⟨?_, ?_, ?_⟩
  · intro hnil
    unfold WS.receive
    rw [if_neg (by decide), hlen, hstep]
    simp [hnil, Except.map]
  · intro a b hab
    unfold WS.receive
    rw [if_neg (by decide), hlen, hstep]
    subst hab
    simp [fromBytesBE, Except.map]
    omega
  · intro hne h2
    unfold WS.receive
    rw [if_neg (by decide), hlen, hstep]
    simp [hne, h2, Except.map]

/-- Witness for C7: an empty close payload gives code 1005 and payload
`0x03 0xE8` gives code 1000, both with FIN set and an empty accumulator. -/
theorem C7_witness :
    (([] : List Nat).length ≤ 125 ∧
      WS.receive true .empty [136, 0] =
        .ok (.disconnect 1005, true, .empty, [])) ∧
    (([3, 232] : List Nat).length ≤ 125 ∧
      WS.receive true .empty [136, 2, 3, 232] =
        .ok (.disconnect 1000, true, .empty, [])) := by
  constructor
  · refine ⟨by decide, ?_⟩
    have h := (C7_close_frames true .empty [] (by decide)).1 rfl
    simpa using h
  · refine ⟨by decide, ?_⟩
    have h := (C7_close_frames true .empty [3, 232] (by decide)).2.1 3 232 rfl
    simpa using h

/-- C7 counterexample: a close frame whose 3-byte payload starts with the
big-endian encoding of code 1000 raises `struct.error` instead of returning
`websocket.disconnect` with code 1000. -/
theorem C7_counterexample :
    WS.receive true .empty [136, 3, 3, 232, 0] = .error .structError ∧
    (Except.error WS.WsErr.structError :
        Except WS.WsErr (WS.WsEvent × Bool × WS.FragState × List Nat)) ≠
      .ok (.disconnect 1000, true, .empty, []) := by
  constructor
  · decide
  · decide

/-- Three frame-loop steps: an opcode-1 fragment, an opcode-0 fragment and a
final opcode-0 fragment with FIN reassemble into one `websocket.receive`
event carrying the concatenation of the decoded payloads; the accumulator
afterwards still holds that payload. -/
theorem receive_frames_three (k : Nat) (p1 p2 p3 : List Nat) (t1 t2 t3 : String)
    (h1 : utf8Decode p1 = some t1) (h2 : utf8Decode p2 = some t2)
    (h3 : utf8Decode p3 = some t3)
    (l1 : p1.length ≤ 125) (l2 : p2.length ≤ 125) (l3 : p3.length ≤ 125) :
    WS.receive_frames (k + 3) .empty
        (1 :: p1.length ::
          (p1 ++ (0 :: p2.length :: (p2 ++ (128 :: p3.length :: p3))))) =
      .ok (.receive (some (t1 ++ t2 ++ t3)) none, .text (t1 ++ t2 ++ t3), []) := by
  have r1 := read_frame_small 1 p1
    (0 :: p2.length :: (p2 ++ (128 :: p3.length :: p3))) l1
  have r2 := read_frame_small 0 p2 (128 :: p3.length :: p3) l2
  have r3 := read_frame_small 128 p3 [] l3
  rw [List.append_nil] at r3
  simp only [show ((1 : Nat) &&& 128 != 0) = false from by decide,
    show ((0 : Nat) &&& 128 != 0) = false from by decide,
    show ((128 : Nat) &&& 128 != 0) = true from by decide,
    show ((1 : Nat) &&& 15) = 1 from by decide,
    show ((0 : Nat) &&& 15) = 0 from by decide,
    show ((128 : Nat) &&& 15) = 0 from by decide] at r1 r2 r3
  rw [show k + 3 = (k + 2) + 1 from rfl]
  simp only [WS.receive_frames]
  rw [r1]
  simp [h1]
  rw [r2]
  simp [h2]
  rw [r3]
  simp [h3, WS.mkReceive]

/-- C6 (amended): a text message sent as three frames — opcode 1 with
`fin = 0`, opcode 0 with `fin = 0`, opcode 0 with `fin = 1` — is returned by
a single `receive()` call in the OPEN state as one `websocket.receive` event
whose text is the concatenation of the three decoded payloads; the fragment
accumulator is **not** reset afterwards: it retains the completed payload
(it is only replaced when the next opcode-1/2 data frame arrives). -/
theorem C6_fragment_reassembly (p1 p2 p3 : List Nat) (t1 t2 t3 : String)
    (h1 : utf8Decode p1 = some t1) (h2 : utf8Decode p2 = some t2)
    (h3 : utf8Decode p3 = some t3)
    (l1 : p1.length ≤ 125) (l2 : p2.length ≤ 125) (l3 : p3.length ≤ 125) :
    WS.receive true .empty
        ((1 :: p1.length :: p1) ++
         ((0 :: p2.length :: p2) ++ (128 :: p3.length :: p3))) =
      .ok (.receive (some (t1 ++ t2 ++ t3)) none, true,
           .text (t1 ++ t2 ++ t3), []) := by
  unfold WS.receive
  rw [if_neg (by decide)]
  simp only [List.cons_append]
  have hk : (1 :: p1.length ::
        (p1 ++ (0 :: p2.length :: (p2 ++ (128 :: p3.length :: p3))))).length + 1 =
      (p1.length + p2.length + p3.length + 4) + 3 := by
    simp [List.length_append]
    omega
  rw [hk, receive_frames_three (p1.length + p2.length + p3.length + 4)
    p1 p2 p3 t1 t2 t3 h1 h2 h3 l1 l2 l3]
  rfl

/-- Witness for C6 with payloads `"a"`, `"b"`, `"c"`. -/
theorem C6_witness :
    utf8Decode [97] = some "a" ∧ utf8Decode [98] = some "b" ∧
    utf8Decode [99] = some "c" ∧
    WS.receive true .empty [1, 1, 97, 0, 1, 98, 128, 1, 99] =
      .ok (.receive (some "abc") none, true, .text "abc", []) := by
  refine ⟨by decide, by decide, by decide, ?_⟩
  have h := C6_fragment_reassembly [97] [98] [99] "a" "b" "c"
    (by decide) (by decide) (by decide) (by decide) (by decide) (by decide)
  simpa using h

/-- C6 counterexample: after the three-fragment message is delivered, the
fragment accumulator still holds the completed payload — it is not reset to
empty as the claim states. -/
theorem C6_counterexample :
    WS.receive true .empty [1, 1, 97, 0, 1, 98, 128, 1, 99] =
      .ok (.receive (some "abc") none, true, .text "abc", []) ∧
    WS.FragState.text "abc" ≠ .empty := by
  constructor
  · decide
  · decide

/-- C8 counterexample: the upgrade response consists of 5 CRLF-terminated
lines — the status line, three headers and the blank terminator — not the 6
lines (status, four headers, blank) the claim describes. -/
theorem C8_counterexample :
    (WS.build_upgrade_response
        [("sec-websocket-key", "dGhlIHNhbXBsZSBub25jZQ==")]).map List.length =
      some 5 ∧ (5 : Nat) ≠ 6 := by
  constructor
  · simp [WS.build_upgrade_response, dictGet]
  · decide

/-- C8 (amended): for every upgrade request whose scope dict contains a
`sec-websocket-key`, the handshake response written by `send` for a
`websocket.accept` event is the fixed `HTTP/1.1 101 Switching Protocols`
status line followed by exactly **three** CRLF-terminated headers —
`Upgrade`, `Connection`, `Sec-WebSocket-Accept`, in that order — followed by
the blank terminator line. -/
theorem C8_handshake_layout (d : List (String × String)) (key : String)
    (hkey : dictGet d "sec-websocket-key" = some key) :
    WS.build_upgrade_response d =
      some [strToBytes "HTTP/1.1 101 Switching Protocols\r\n",
            strToBytes "Upgrade: websocket\r\n",
            strToBytes "Connection: Upgrade\r\n",
            strToBytes ("Sec-WebSocket-Accept: " ++ computeAcceptToken key ++
              "\r\n"),
            strToBytes "\r\n"] ∧
    WS.send_accept_wire d =
      some (strToBytes "HTTP/1.1 101 Switching Protocols\r\n" ++
            (strToBytes "Upgrade: websocket\r\n" ++
             (strToBytes "Connection: Upgrade\r\n" ++
              (strToBytes ("Sec-WebSocket-Accept: " ++ computeAcceptToken key ++
                 "\r\n") ++
               strToBytes "\r\n")))) := by
  constructor
  · simp [WS.build_upgrade_response, hkey]
  · simp [WS.send_accept_wire, WS.build_upgrade_response, hkey]

/-- Witness for C8 at a concrete scope dict. -/
theorem C8_witness :
    dictGet [("sec-websocket-key", "k0")] "sec-websocket-key" = some "k0" ∧
    WS.build_upgrade_response [("sec-websocket-key", "k0")] =
      some [strToBytes "HTTP/1.1 101 Switching Protocols\r\n",
            strToBytes "Upgrade: websocket\r\n",
            strToBytes "Connection: Upgrade\r\n",
            strToBytes ("Sec-WebSocket-Accept: " ++ computeAcceptToken "k0" ++
              "\r\n"),
            strToBytes "\r\n"] := by
  refine ⟨by decide, ?_⟩
  exact (C8_handshake_layout [("sec-websocket-key", "k0")] "k0" (by decide)).1

/-- C9 counterexample: with two `content-length` headers (`"1"` then `"3"`)
the dict-based `receive` of the websocket revision reads 3 bytes of body —
the **last** occurrence decides, not the first as the claim states. -/
theorem C9_counterexample :
    WS.http_receive [("content-length", "1"), ("content-length", "3")]
        [97, 98, 99, 100, 101] =
      some (⟨"http.request", [97, 98, 99], false⟩, [100, 101]) ∧
    ([97, 98, 99] : List Nat).length ≠ 1 := by
  constructor
  · decide
  · decide

/-- C9 (amended): a `receive()` call returns one `http.request` event with
`more_body = false` whose body is read from the stream with length equal to
the integer value of the `content-length` header (0 when the header is
absent).  With duplicate `content-length` headers the two revisions differ:
`src/server.py` (`get_content_length`, list scan) uses the **first**
occurrence, while the websocket revision (dict lookup) uses the **last**
occurrence. -/
theorem C9_content_length (hs1 hs2 : List (List Nat × List Nat))
    (v : List Nat) (n : Nat) (s : List Nat)
    (d1 d2 : List (String × String)) (w : String) (m : Nat) (s2 : List Nat)
    (hfirst : ∀ kv ∈ hs1, kv.1 ≠ strToBytes "content-length")
    (hval : parseDigits v = some n) (hn : n ≤ s.length)
    (hlast : ∀ kv ∈ d2, kv.1 ≠ "content-length")
    (hw : parseDigitsStr w = some m) (hm : m ≤ s2.length) :
    Server.receive (hs1 ++ (strToBytes "content-length", v) :: hs2) s =
      some (⟨"http.request", s.take n, false⟩, s.drop n) ∧
    (s.take n).length = n ∧
    Server.receive hs1 s = some (⟨"http.request", [], false⟩, s) ∧
    WS.http_receive (d1 ++ ("content-length", w) :: d2) s2 =
      some (⟨"http.request", s2.take m, false⟩, s2.drop m) ∧
    (s2.take m).length = m := by
  have hnone : hs1.find?
      (fun kv => kv.1 = strToBytes "content-length") = none := by
    rw [List.find?_eq_none]
    intro x hx
    simpa using hfirst x hx
  refine ⟨?_, ?_, ?_, ?_, ?_⟩
  · have hfind : (hs1 ++ (strToBytes "content-length", v) :: hs2).find?
        (fun kv => kv.1 = strToBytes "content-length") =
          some (strToBytes "content-length", v) := by
      rw [List.find?_append, hnone]
      simp
    simp [Server.receive, Server.get_content_length, hfind, hval]
  · rw [List.length_take]
    omega
  · simp [Server.receive, Server.get_content_length, hnone]
  · have hfilter : (d1 ++ ("content-length", w) :: d2).filter
        (fun kv => kv.1 = "content-length") =
          d1.filter (fun kv => kv.1 = "content-length") ++
            [("content-length", w)] := by
      rw [List.filter_append]
      have h2 : d2.filter (fun kv => kv.1 = "content-length") = [] := by
        rw [List.filter_eq_nil_iff]
        intro x hx
        simpa using hlast x hx
      simp [h2]
    simp [WS.http_receive, dictGet, hfilter, List.getLast?_concat, hw]
  · rw [List.length_take]
    omega

/-- Witness for C9: first-occurrence lookup in the list-scan revision and
last-occurrence lookup in the dict revision, at concrete headers. -/
theorem C9_witness :
    (∀ kv ∈ ([(strToBytes "host", strToBytes "x")] :
        List (List Nat × List Nat)), kv.1 ≠ strToBytes "content-length") ∧
    parseDigits [50] = some 2 ∧
    (∀ kv ∈ ([] : List (String × String)), kv.1 ≠ "content-length") ∧
    parseDigitsStr "1" = some 1 ∧
    Server.receive
        ([(strToBytes "host", strToBytes "x")] ++
          (strToBytes "content-length", [50]) ::
            [(strToBytes "content-length", [57])]) [97, 98, 99] =
      some (⟨"http.request", [97, 98], false⟩, [99]) ∧
    WS.http_receive ([("content-length", "9")] ++ ("content-length", "1") :: [])
        [100, 101] =
      some (⟨"http.request", [100], false⟩, [101]) := by
  have h := C9_content_length [(strToBytes "host", strToBytes "x")]
    [(strToBytes "content-length", [57])] [50] 2 [97, 98, 99]
    [("content-length", "9")] [] "1" 1 [100, 101]
    (by decide) (by decide) (by decide) (by decide) (by decide) (by decide)
  refine ⟨by decide, by decide, by decide, by decide, ?_, ?_⟩
  · simpa using h.1
  · simpa using h.2.2.2.1

/-- C10: the HTTP `receive` closure keeps no state across calls — every
call, not only the first, returns an `http.request` event with
`more_body = false` and reads `content-length` bytes from the stream again,
so a second call after the body was consumed reads whatever bytes follow
(an empty body when the stream is exhausted) instead of failing or
returning a distinct end-of-body event. -/
theorem C10_receive_stateless (headers : List (List Nat × List Nat))
    (n : Nat) (s : List Nat)
    (h : Server.get_content_length headers = some n) :
    Server.receive headers s =
      some (⟨"http.request", s.take n, false⟩, s.drop n) ∧
    Server.receive headers (s.drop n) =
      some (⟨"http.request", (s.drop n).take n, false⟩, (s.drop n).drop n) ∧
    (s.length = n →
      Server.receive headers (s.drop n) =
        some (⟨"http.request", [], false⟩, [])) := by
  refine ⟨by simp [Server.receive, h], by simp [Server.receive, h], ?_⟩
  intro hlen
  have hd : s.drop n = [] := List.drop_eq_nil_of_le (le_of_eq hlen)
  simp [Server.receive, h, hd]

/-- Witness for C10: a 2-byte body consumed by the first call; the second
call returns an empty body with the same event shape. -/
theorem C10_witness :
    Server.get_content_length [(strToBytes "content-length", [50])] = some 2 ∧
    Server.receive [(strToBytes "content-length", [50])] [97, 98] =
      some (⟨"http.request", [97, 98], false⟩, []) ∧
    Server.receive [(strToBytes "content-length", [50])] [] =
      some (⟨"http.request", [], false⟩, []) := by
  have h := C10_receive_stateless [(strToBytes "content-length", [50])] 2
    [97, 98] (by decide)
  refine ⟨by decide, ?_, ?_⟩
  · simpa using h.1
  · simpa using h.2.2 rfl

end Asgi
